import Mathlib

/-!
Shallow embedding of the transcription-request lifecycle implemented in
`src/project/src/App.tsx` (the `App` React component).

The embedded fragment covers the three operations the specification's claims
are about:

* `handleFileSelect` — validation of a candidate file (App.tsx lines 27-42);
* `transcribeAudio` — the request lifecycle: state transitions, response
  classification and the error taxonomy (App.tsx lines 91-261), split into
  `transcribeStart` (the synchronous part up to dispatching the fetch) and
  `transcribeResolve` (the continuation run when the fetch settles);
* `resetApp` — the reset operation (App.tsx lines 301-311).

Browser primitives are modelled as follows: `fetch` settling is an explicit
`FetchOutcome` argument; `JSON.parse` of the response body is carried by the
`bodyJson : Option Json` field of `HttpResponse` (`none` when parsing throws);
a property read on a parsed `null` throws a TypeError, raised by
`readTranscriptFields` before any field lookup;
`JSON.stringify(x, null, 2)` is `Json.stringify` (whitespace placement of the
pretty-printer is immaterial to every string-containment test performed on its
output, since no marker can straddle a token boundary); `URL.createObjectURL`
is modelled by recording the blob itself in the `audioUrl` slot. React's
`useState` cells owned by the lifecycle (`file`, `audioUrl`, `isPlaying`,
`transcription`, `showNgrokWarning`, `showDebugInfo`) form `AppState`; the
purely presentational cells (`isDragOver`, `copySuccess`) are neither read nor
written by any embedded operation and are omitted. Each call of the React
state setter `setTranscription` during a resolve is additionally recorded, in
order, in a trace, so that temporal claims about intermediate states can be
stated.
-/

/-- Characterwise test that `pat` is an initial segment of `s`
(JS `String.prototype.startsWith` / TS `type.startsWith`). -/
def leadsWith : List Char → List Char → Bool
  | [], _ => true
  | _ :: _, [] => false
  | a :: as, b :: bs => a == b && leadsWith as bs

/-- Characterwise substring test (JS `String.prototype.includes`). -/
def hasSub (pat : List Char) : List Char → Bool
  | [] => pat.isEmpty
  | c :: rest => leadsWith pat (c :: rest) || hasSub pat rest

/-- JS `s.includes(pat)`. -/
def strContains (s pat : String) : Bool := hasSub pat.data s.data

/-- JS `s.startsWith(pat)`. -/
def strStarts (s pat : String) : Bool := leadsWith pat.data s.data

/-- JSON values, the possible results of `JSON.parse`. -/
inductive Json where
  | str : String → Json
  | num : Int → Json
  | bool : Bool → Json
  | null : Json
  | arr : List Json → Json
  | obj : List (String × Json) → Json
deriving Repr

/-- JS property access `j.k` on a non-null parsed value: a lookup when `j`
is an object (`JSON.parse` never yields duplicate keys), `undefined` (here
`none`) for the remaining receivers, which wrap to objects without the named
property. A `null` receiver is not covered by this function: in JS the access
throws a TypeError, and `readTranscriptFields` below raises it before any
field access takes place, so the catch-all equation is never consulted at
`null`. -/
def Json.field : Json → String → Option Json
  | .obj kvs, k => kvs.lookup k
  | _, _ => none

/-- JS truthiness of `j.k`: `undefined`, `null`, `""`, `0` and `false` are
falsy; everything else (including empty arrays and objects) is truthy. -/
def jsTruthy : Option Json → Bool
  | none => false
  | some (.str s) => !(s == "")
  | some (.num n) => !(n == 0)
  | some (.bool b) => b
  | some .null => false
  | some (.arr _) => true
  | some (.obj _) => true

/-- JS `a || b` on two property accesses: the left value when truthy,
otherwise the right value. -/
def jsOr (a b : Option Json) : Option Json := if jsTruthy a then a else b

/-- JSON string-literal escaping as performed by `JSON.stringify`: quote and
backslash are escaped (control-character escapes, which no value in this
development contains, are omitted). -/
def escapeChar (c : Char) : String :=
  if c == '"' then "\\\"" else if c == '\\' then "\\\\" else String.singleton c

/-- Body of a serialized JSON string literal. -/
def escapeStr (s : String) : String := s.data.foldl (fun acc c => acc ++ escapeChar c) ""

mutual

/-- Serialization of a parsed value, modelling `JSON.stringify(x, null, 2)`
(App.tsx line 151) up to inter-token whitespace, which no containment test in
the classifier can observe. -/
def Json.stringify : Json → String
  | .str s => "\"" ++ escapeStr s ++ "\""
  | .num n => toString n
  | .bool b => if b then "true" else "false"
  | .null => "null"
  | .arr xs => "[" ++ Json.stringifyList xs ++ "]"
  | .obj kvs => "\x7b" ++ Json.stringifyObj kvs ++ "\x7d"

/-- Comma-separated serialization of array elements. -/
def Json.stringifyList : List Json → String
  | [] => ""
  | [x] => Json.stringify x
  | x :: y :: rest => Json.stringify x ++ "," ++ Json.stringifyList (y :: rest)

/-- Comma-separated serialization of object members. -/
def Json.stringifyObj : List (String × Json) → String
  | [] => ""
  | [(k, v)] => "\"" ++ escapeStr k ++ "\":" ++ Json.stringify v
  | (k, v) :: m :: rest =>
      "\"" ++ escapeStr k ++ "\":" ++ Json.stringify v ++ "," ++ Json.stringifyObj (m :: rest)

end

/-- Status tag of the `TranscriptionState` React state cell
(App.tsx lines 4-10). -/
inductive Status where
  | idle
  | uploading
  | processing
  | success
  | error
deriving DecidableEq, Repr

/-- Diagnostic bundle rebuilt from a caught `Error` (App.tsx lines 224-230);
`stack`, `cause` and `timestamp` are environment-supplied and carry no
classification-relevant information, so only the identity-bearing fields are
kept. -/
structure ErrInfo where
  name : String
  message : String
deriving Repr

/-- The `TranscriptionState` interface (App.tsx lines 4-10). The transcript
slot holds the JSON value assigned at line 203 (a string in every specified
interaction, but JS would store any truthy value). -/
structure TranscriptionState where
  status : Status
  transcript : Option Json := none
  error : Option String := none
  progress : Option Nat := none
  fullError : Option ErrInfo := none
deriving Repr

/-- A candidate `File` object: the three attributes the lifecycle reads. -/
structure FileInfo where
  name : String
  type : String
  size : Nat
deriving Repr

/-- The React state cells owned by the lifecycle controller. `audioUrl`
records the blob `URL.createObjectURL` was applied to. -/
structure AppState where
  file : Option FileInfo
  audioUrl : Option FileInfo
  isPlaying : Bool
  transcription : TranscriptionState
  showNgrokWarning : Bool
  showDebugInfo : Bool
deriving Repr

/-- Initial values of the `useState` cells (App.tsx lines 13-20). -/
def initialState : AppState :=
  { file := none
    audioUrl := none
    isPlaying := false
    transcription := { status := .idle }
    showNgrokWarning := false
    showDebugInfo := false }

/-- Validation message for a non-audio MIME type (App.tsx line 29). -/
def invalidTypeMsg : String := "Please select a valid audio file"

/-- Validation message for an oversized file (App.tsx line 34). -/
def tooLargeMsg : String := "File size must be less than 25MB"

/-- The 25 MiB size ceiling (App.tsx line 33). -/
def sizeLimit : Nat := 25 * 1024 * 1024

/-- The `handleFileSelect` callback (App.tsx lines 27-42). -/
def handleFileSelect (s : AppState) (selectedFile : FileInfo) : AppState :=
  if !(strStarts selectedFile.type "audio/") then
    { s with transcription := { status := .error, error := some invalidTypeMsg } }
  else if selectedFile.size > sizeLimit then
    { s with transcription := { status := .error, error := some tooLargeMsg } }
  else
    { s with
      file := some selectedFile
      audioUrl := some selectedFile
      transcription := { status := .idle }
      isPlaying := false }

/-- The `resetApp` callback (App.tsx lines 301-311); the `fileInputRef` DOM
write is presentation-layer. -/
def resetApp (s : AppState) : AppState :=
  { s with
    file := none
    audioUrl := none
    isPlaying := false
    transcription := { status := .idle }
    showNgrokWarning := false
    showDebugInfo := false }

/-- An HTTP response as `transcribeAudio` observes it: status code, whether
the `content-type` header includes `application/json` (App.tsx line 149), the
body text, and the result of `JSON.parse` on that text (`none` when parsing
throws). -/
structure HttpResponse where
  status : Nat
  contentTypeJson : Bool
  bodyText : String
  bodyJson : Option Json
deriving Repr

/-- `Response.ok`: status in the 2xx range. -/
def HttpResponse.isOk (r : HttpResponse) : Bool := 200 ≤ r.status && r.status ≤ 299

/-- How the `fetch` at App.tsx line 120 settles: a response arrives, the
120-second timer fires and the `AbortController` aborts the request (the
rejection is a `DOMException` named `AbortError` with an environment-chosen
message), or the request fails at transport level (the rejection is a
`TypeError` with an environment-chosen message such as `Failed to fetch`). -/
inductive FetchOutcome where
  | response : HttpResponse → FetchOutcome
  | abortError : String → FetchOutcome
  | networkError : String → FetchOutcome
deriving Repr

/-- A thrown JS `Error`: its `name` and `message`. -/
structure JsError where
  name : String
  message : String
deriving Repr

/-- Message of the error thrown when an interstitial-page marker is found in
the error text (App.tsx line 166). -/
def bypassMsg : String := "Please visit the API URL first to bypass the ngrok warning page"

/-- Timeout classification (App.tsx line 233). -/
def timeoutMsg : String := "Request timed out. Please try again with a shorter audio file."

/-- Transport-failure classification (App.tsx line 236). -/
def unableMsg : String := "Unable to connect to the transcription service. Please visit the API URL first to bypass the ngrok warning page."

/-- Message thrown when the 2xx body does not parse (App.tsx line 195). -/
def invalidFormatMsg : String := "Invalid response format from server"

/-- Message thrown when neither expected field is truthy (App.tsx line 208). -/
def noTranscriptMsg : String := "No transcript received from server"

/-- Message of the TypeError thrown by a property read on a `null` receiver
(the V8 wording for reading `transcript`; other engines word it differently,
and only its being distinct from every classifier literal is relied upon). -/
def nullReadMsg : String := "Cannot read properties of null (reading \x27transcript\x27)"

/-- JS evaluation of `result.transcript || result.text` (App.tsx line 198):
when the parsed `result` is `null`, the very first property access throws a
TypeError; on every other parsed value the two accesses yield the field for
objects and `undefined` otherwise, combined by JS `||`. -/
def readTranscriptFields : Json → Except JsError (Option Json)
  | .null => .error ⟨"TypeError", nullReadMsg⟩
  | result => .ok (jsOr (result.field "transcript") (result.field "text"))

/-- Message embedding status and error text (App.tsx line 180). -/
def serverErrMsg (status : Nat) (errorText : String) : String :=
  "Server error (" ++ toString status ++ "): " ++ errorText

/-- The three literal interstitial-page markers (App.tsx line 163). -/
def markers : List String := ["ngrok.com", "Visit Site", "ngrok-skip-browser-warning"]

/-- Marker containment test applied to the error text (App.tsx line 163). -/
def hasMarker (t : String) : Bool := markers.any (fun m => strContains t m)

/-- The `errorText` computed for a non-ok response (App.tsx lines 142-160):
the re-serialized parsed body when the declared content type is JSON and
parsing succeeds, a fixed placeholder when it throws, the raw text
otherwise. -/
def errorTextOf (r : HttpResponse) : String :=
  if r.contentTypeJson then
    match r.bodyJson with
    | some j => Json.stringify j
    | none => "Unable to parse error response"
  else r.bodyText

/-- The catch-block classification chain (App.tsx lines 232-243): returns the
user-facing `errorMessage` and whether `setShowNgrokWarning(true)` is called
inside the chain. The `AbortError` name test comes first; then the
transport-failure message heuristics; then the marker-thrown message; else
the thrown message verbatim. -/
def classifyCatch (e : JsError) : String × Bool :=
  if e.name == "AbortError" then
    (timeoutMsg, false)
  else if strContains e.message "Failed to fetch" || strContains e.message "NetworkError"
      || strContains e.message "TypeError" then
    (unableMsg, true)
  else if strContains e.message "ngrok warning" then
    (e.message, true)
  else
    (e.message, false)

/-- Terminal error assignment (App.tsx lines 255-259) after running the catch
chain on thrown error `e`; the trace records the one `setTranscription`
call. -/
def errFinish (s : AppState) (e : JsError) : AppState × List TranscriptionState :=
  let c := classifyCatch e
  let ts : TranscriptionState :=
    { status := .error, error := some c.1, fullError := some ⟨e.name, e.message⟩ }
  ({ s with transcription := ts, showNgrokWarning := s.showNgrokWarning || c.2 }, [ts])

/-- Continuation of `transcribeAudio` once the `fetch` settles (App.tsx lines
129-260), starting from the state left by the dispatch. Returns the final
state and the ordered list of `setTranscription` calls it performs. -/
def transcribeResolve (s : AppState) (o : FetchOutcome) : AppState × List TranscriptionState :=
  match o with
  | .abortError m => errFinish s ⟨"AbortError", m⟩
  | .networkError m => errFinish s ⟨"TypeError", m⟩
  | .response r =>
    if !r.isOk then
      let errorText := errorTextOf r
      if hasMarker errorText then
        errFinish { s with showNgrokWarning := true } ⟨"Error", bypassMsg⟩
      else
        errFinish s ⟨"Error", serverErrMsg r.status errorText⟩
    else
      let procState : TranscriptionState := { status := .processing, progress := some 50 }
      let s1 := { s with transcription := procState }
      match r.bodyJson with
      | none =>
        let f := errFinish s1 ⟨"Error", invalidFormatMsg⟩
        (f.1, procState :: f.2)
      | some result =>
        match readTranscriptFields result with
        | .error e =>
          let f := errFinish s1 e
          (f.1, procState :: f.2)
        | .ok tv =>
          if jsTruthy tv then
            let succState : TranscriptionState :=
              { status := .success, transcript := tv, progress := some 100 }
            ({ s1 with transcription := succState }, [procState, succState])
          else
            let f := errFinish s1 ⟨"Error", noTranscriptMsg⟩
            (f.1, procState :: f.2)

/-- Synchronous part of `transcribeAudio` (App.tsx lines 91-127): the guard
`if (!file) return` and the transition to `uploading`/progress 0. The boolean
records whether a request is dispatched. -/
def transcribeStart (s : AppState) : AppState × Bool :=
  match s.file with
  | none => (s, false)
  | some _ =>
    ({ s with transcription := { status := .uploading, progress := some 0 } }, true)

/-- One whole run of `transcribeAudio` whose dispatched fetch settles with
outcome `o`: final state plus the ordered trace of `setTranscription`
calls. -/
def transcribeAudio (s : AppState) (o : FetchOutcome) : AppState × List TranscriptionState :=
  let st := transcribeStart s
  if st.2 then
    let f := transcribeResolve st.1 o
    (f.1, st.1.transcription :: f.2)
  else
    (st.1, [])

/-- Unfolding of a dispatched run: when a file is selected, `transcribeAudio`
sets the `uploading` state and hands over to `transcribeResolve`. -/
theorem transcribeAudio_eq_resolve (s : AppState) (o : FetchOutcome)
    (h : s.file.isSome = true) :
    transcribeAudio s o =
      ((transcribeResolve
          { s with transcription := { status := .uploading, progress := some 0 } } o).1,
        ({ status := .uploading, progress := some 0 } : TranscriptionState) ::
          (transcribeResolve
            { s with transcription := { status := .uploading, progress := some 0 } } o).2) := by
  cases hf : s.file with
  | none => rw [hf] at h; simp at h
  | some v => simp [transcribeAudio, transcribeStart, hf]

/-- C2 counterexample: from the initial (idle) state, selecting a file whose
MIME type does not start with `audio/` leaves the Request State at `error`,
not idle — the code stores the invalid-type message in an error state
(App.tsx line 29), so the Request State does not remain at or return to
idle. -/
theorem C2_counterexample :
    strStarts (FileInfo.mk "clip.mp4" "video/mp4" 1000).type "audio/" = false ∧
    (handleFileSelect initialState (FileInfo.mk "clip.mp4" "video/mp4" 1000)).transcription.status
      = Status.error ∧
    (handleFileSelect initialState (FileInfo.mk "clip.mp4" "video/mp4" 1000)).transcription.status
      ≠ Status.idle := by
  refine ⟨by decide, by decide, by decide⟩

/-- C2 (amended): for every candidate file whose declared MIME type does not
start with `audio/`, validation rejects it with the invalid-type reason,
stored as an error Request State carrying the invalid-type message; every
other state cell — in particular the current file selection — is left
unchanged. -/
theorem C2_invalid_type_rejected (s : AppState) (f : FileInfo)
    (h : strStarts f.type "audio/" = false) :
    handleFileSelect s f =
      { s with transcription := { status := .error, error := some invalidTypeMsg } } := by
  simp [handleFileSelect, h]

/-- C2 witness: the amended statement at a concrete non-audio file. -/
theorem C2_witness :
    handleFileSelect initialState (FileInfo.mk "clip.mp4" "video/mp4" 1000) =
      { initialState with
        transcription := { status := .error, error := some invalidTypeMsg } } :=
  C2_invalid_type_rejected initialState (FileInfo.mk "clip.mp4" "video/mp4" 1000) (by decide)

/-- C7: for every candidate file with an audio MIME type, a byte size
strictly greater than 25 × 1024 × 1024 is rejected with the too-large reason,
while a file of exactly 25 × 1024 × 1024 bytes passes the size check and is
accepted (selection replaced, Request State reset to idle). -/
theorem C7_size_limit (s : AppState) (f : FileInfo)
    (h : strStarts f.type "audio/" = true) :
    (sizeLimit < f.size →
      handleFileSelect s f =
        { s with transcription := { status := .error, error := some tooLargeMsg } }) ∧
    (f.size = sizeLimit →
      handleFileSelect s f =
        { s with
          file := some f
          audioUrl := some f
          transcription := { status := .idle }
          isPlaying := false }) := by
  constructor
  · intro hlt
    simp [handleFileSelect, h, sizeLimit] at hlt ⊢
    simp [hlt]
  · intro heq
    simp [handleFileSelect, h, heq, sizeLimit]

/-- C7 witness: the size bound at a 25 MiB + 1 file and at an exactly 25 MiB
file. -/
theorem C7_witness :
    handleFileSelect initialState (FileInfo.mk "big.mp3" "audio/mpeg" (25 * 1024 * 1024 + 1)) =
      { initialState with
        transcription := { status := .error, error := some tooLargeMsg } } ∧
    handleFileSelect initialState (FileInfo.mk "edge.mp3" "audio/mpeg" (25 * 1024 * 1024)) =
      { initialState with
        file := some (FileInfo.mk "edge.mp3" "audio/mpeg" (25 * 1024 * 1024))
        audioUrl := some (FileInfo.mk "edge.mp3" "audio/mpeg" (25 * 1024 * 1024))
        transcription := { status := .idle }
        isPlaying := false } :=
  ⟨(C7_size_limit initialState _ (by decide)).1 (by decide),
   (C7_size_limit initialState _ (by decide)).2 (by decide)⟩

/-- C9: the reset operation, from any state, clears the Selected File and its
audio source, returns the Request State to idle (discarding transcript,
error, progress and diagnostic bundle), clears the gateway-bypass notice and
the debug-panel flag, restoring the initial condition in one step. -/
theorem C9_reset_restores_initial (s : AppState) : resetApp s = initialState := rfl

/-- C10: when a candidate file fails validation (non-audio MIME type, or
audio type but oversized), the previously Selected File and its audio source
URL are unchanged, and the whole resulting state differs from the prior one
at most in the Request State — the rejected candidate never replaces the
current selection. -/
theorem C10_rejection_frame (s : AppState) (f : FileInfo)
    (h : strStarts f.type "audio/" = false ∨
      (strStarts f.type "audio/" = true ∧ sizeLimit < f.size)) :
    (handleFileSelect s f).file = s.file ∧
    (handleFileSelect s f).audioUrl = s.audioUrl ∧
    handleFileSelect s f = { s with transcription := (handleFileSelect s f).transcription } := by
  rcases h with h | ⟨h, hlt⟩
  · simp [handleFileSelect, h]
  · simp [handleFileSelect, h, hlt]

/-- C10 witness: the frame property at a concrete rejected candidate over a
state holding a previously accepted file. -/
theorem C10_witness :
    (handleFileSelect
        (handleFileSelect initialState (FileInfo.mk "a.mp3" "audio/mpeg" 100))
        (FileInfo.mk "clip.mp4" "video/mp4" 1000)).file
      = (handleFileSelect initialState (FileInfo.mk "a.mp3" "audio/mpeg" 100)).file :=
  (C10_rejection_frame (handleFileSelect initialState (FileInfo.mk "a.mp3" "audio/mpeg" 100))
    (FileInfo.mk "clip.mp4" "video/mp4" 1000) (Or.inl (by decide))).1

/-- Reading the two expected fields of a non-null parsed value does not
throw: it yields the JS disjunction of the two lookups. -/
theorem readTranscriptFields_ne_null (j : Json) (h : j ≠ .null) :
    readTranscriptFields j = .ok (jsOr (j.field "transcript") (j.field "text")) := by
  cases j <;> first | exact absurd rfl h | rfl

/-- A parsed value holding one of the expected fields is not `null`. -/
theorem ne_null_of_field_some (j : Json) (k : String) (v : Json)
    (h : j.field k = some v) : j ≠ .null := by
  intro hn
  rw [hn] at h
  simp [Json.field] at h

/-- Evaluation of the catch chain on the no-transcript error: the message is
kept verbatim and no advisory is raised. -/
theorem classify_noTranscript :
    classifyCatch ⟨"Error", noTranscriptMsg⟩ = (noTranscriptMsg, false) := by decide

/-- Evaluation of the catch chain on the marker-thrown error: its message
contains `ngrok warning`, so the message is kept and the advisory raised. -/
theorem classify_bypass :
    classifyCatch ⟨"Error", bypassMsg⟩ = (bypassMsg, true) := by decide

/-- C1: for every 2xx response whose body parses to JSON with a non-empty
`transcript` string field, the terminal Request State is success with the
transcript set to exactly that field's value and progress 100 — whatever the
`text` field holds, so `transcript` takes priority; and when `transcript` is
absent or empty but a non-empty `text` string field is present, the
transcript is set to the `text` value instead. -/
theorem C1_transcript_priority_success :
    (∀ (s : AppState) (r : HttpResponse) (j : Json) (t : String),
      s.file.isSome = true → r.isOk = true → r.bodyJson = some j →
      j.field "transcript" = some (.str t) → t ≠ "" →
      (transcribeAudio s (.response r)).1.transcription =
        { status := .success, transcript := some (.str t), progress := some 100 }) ∧
    (∀ (s : AppState) (r : HttpResponse) (j : Json) (u : String),
      s.file.isSome = true → r.isOk = true → r.bodyJson = some j →
      (j.field "transcript" = none ∨ j.field "transcript" = some (.str "")) →
      j.field "text" = some (.str u) → u ≠ "" →
      (transcribeAudio s (.response r)).1.transcription =
        { status := .success, transcript := some (.str u), progress := some 100 }) := by
  constructor
  · intro s r j t hs hok hj ht htne
    have hbe : (t == "") = false := by simp [htne]
    have hrf := readTranscriptFields_ne_null j (ne_null_of_field_some j "transcript" _ ht)
    rw [transcribeAudio_eq_resolve _ _ hs]
    simp [transcribeResolve, hok, hj, hrf, jsOr, jsTruthy, ht, hbe]
  · intro s r j u hs hok hj htr htx hune
    have hbe : (u == "") = false := by simp [hune]
    have hrf := readTranscriptFields_ne_null j (ne_null_of_field_some j "text" _ htx)
    rw [transcribeAudio_eq_resolve _ _ hs]
    rcases htr with htr | htr <;>
      simp [transcribeResolve, hok, hj, hrf, jsOr, jsTruthy, htr, htx, hbe]

/-- C1 witness: both parts at a concrete accepted file, for bodies with a
`transcript` field and with only a `text` field. -/
theorem C1_witness :
    (transcribeAudio (handleFileSelect initialState (FileInfo.mk "a.mp3" "audio/mpeg" 100))
        (.response (HttpResponse.mk 200 true "" (some (.obj [("transcript", .str "hello world")]))))).1.transcription
      = { status := .success, transcript := some (.str "hello world"), progress := some 100 } ∧
    (transcribeAudio (handleFileSelect initialState (FileInfo.mk "a.mp3" "audio/mpeg" 100))
        (.response (HttpResponse.mk 200 true "" (some (.obj [("text", .str "alt text")]))))).1.transcription
      = { status := .success, transcript := some (.str "alt text"), progress := some 100 } :=
  ⟨C1_transcript_priority_success.1 _ _ _ "hello world" (by decide) (by decide) rfl rfl
      (by decide),
   C1_transcript_priority_success.2 _ _ _ "alt text" (by decide) (by decide) rfl (Or.inl rfl)
      rfl (by decide)⟩

/-- C6 counterexample: a 2xx response whose body is the JSON text `null` —
it parses, and the parsed value has neither a `transcript` nor a `text`
field, so it is inside the claim; but at App.tsx line 198 the very first
property access `result.transcript` throws a TypeError on the null receiver,
whose message matches no branch of the catch chain, so the terminal error
message is the TypeError's own wording, not the no-transcript-received
message. -/
theorem C6_counterexample :
    (HttpResponse.mk 200 true "null" (some .null)).isOk = true ∧
    (transcribeAudio (handleFileSelect initialState (FileInfo.mk "a.mp3" "audio/mpeg" 100))
        (.response (HttpResponse.mk 200 true "null" (some .null)))).1.transcription
      = { status := .error, error := some nullReadMsg,
          fullError := some ⟨"TypeError", nullReadMsg⟩ } ∧
    nullReadMsg ≠ noTranscriptMsg := by
  refine ⟨by decide, rfl, by decide⟩

/-- C6 (amended): for every 2xx response whose body parses to a JSON value
other than `null` in which the `transcript` and `text` fields are each
absent or the empty string, the terminal Request State is an error carrying
the no-transcript-received message (a body parsing to `null` instead throws
on the first field access and surfaces that TypeError's message). -/
theorem C6_no_transcript_error :
    ∀ (s : AppState) (r : HttpResponse) (j : Json),
      s.file.isSome = true → r.isOk = true → r.bodyJson = some j → j ≠ .null →
      (j.field "transcript" = none ∨ j.field "transcript" = some (.str "")) →
      (j.field "text" = none ∨ j.field "text" = some (.str "")) →
      (transcribeAudio s (.response r)).1.transcription =
        { status := .error, error := some noTranscriptMsg,
          fullError := some ⟨"Error", noTranscriptMsg⟩ } := by
  intro s r j hs hok hj hnn htr htx
  have hrf := readTranscriptFields_ne_null j hnn
  rw [transcribeAudio_eq_resolve _ _ hs]
  rcases htr with htr | htr <;> rcases htx with htx | htx <;>
    simp [transcribeResolve, hok, hj, hrf, jsOr, jsTruthy, htr, htx, errFinish,
      classify_noTranscript]

/-- C6 witness: the empty JSON object body at a concrete accepted file. -/
theorem C6_witness :
    (transcribeAudio (handleFileSelect initialState (FileInfo.mk "a.mp3" "audio/mpeg" 100))
        (.response (HttpResponse.mk 200 true "" (some (.obj []))))).1.transcription
      = { status := .error, error := some noTranscriptMsg,
          fullError := some ⟨"Error", noTranscriptMsg⟩ } :=
  C6_no_transcript_error _ _ (.obj []) (by decide) (by decide) rfl
    (fun h => Json.noConfusion h) (Or.inl rfl) (Or.inl rfl)

/-- C3: when the dispatched request is aborted by the 120-second trigger, the
terminal Request State carries the timeout classification — telling the user
to retry with a shorter file — for every abort message the environment
attaches (the `AbortError` name test is the first branch of the catch chain,
so even a message matching a later heuristic still classifies as timeout),
the advisory flag is untouched, and the timeout message is distinct from the
generic network-failure message. -/
theorem C3_timeout_classification :
    ∀ (s : AppState) (m : String), s.file.isSome = true →
      (transcribeAudio s (.abortError m)).1.transcription =
        { status := .error, error := some timeoutMsg,
          fullError := some ⟨"AbortError", m⟩ } ∧
      (transcribeAudio s (.abortError m)).1.showNgrokWarning = s.showNgrokWarning ∧
      timeoutMsg ≠ unableMsg := by
  intro s m hs
  rw [transcribeAudio_eq_resolve _ _ hs]
  refine ⟨?_, ?_, by decide⟩ <;> simp [transcribeResolve, errFinish, classifyCatch]

/-- C3 witness: an abort whose message even matches the transport-failure
heuristic of the second branch still classifies as timeout. -/
theorem C3_witness :
    (transcribeAudio (handleFileSelect initialState (FileInfo.mk "a.mp3" "audio/mpeg" 100))
        (.abortError "Failed to fetch")).1.transcription
      = { status := .error, error := some timeoutMsg,
          fullError := some ⟨"AbortError", "Failed to fetch"⟩ } :=
  (C3_timeout_classification _ "Failed to fetch" (by decide)).1

/-- C5 counterexample: a 403 response declaring a JSON content type whose raw
body contains the markers `ngrok.com` and `Visit Site` but does not parse —
the classifier replaces the unparseable body by a fixed placeholder (App.tsx
lines 157-160) before the marker test, so the advisory flag is not raised and
the classified message is the generic embedded-status one, refuting the claim
for this non-2xx response whose raw body contains a marker. -/
theorem C5_counterexample :
    (HttpResponse.mk 403 true "ngrok.com interstitial Visit Site" none).isOk = false ∧
    strContains (HttpResponse.mk 403 true "ngrok.com interstitial Visit Site" none).bodyText
      "ngrok.com" = true ∧
    (transcribeAudio (handleFileSelect initialState (FileInfo.mk "a.mp3" "audio/mpeg" 100))
        (.response (HttpResponse.mk 403 true "ngrok.com interstitial Visit Site" none))).1.showNgrokWarning
      = false ∧
    (transcribeAudio (handleFileSelect initialState (FileInfo.mk "a.mp3" "audio/mpeg" 100))
        (.response (HttpResponse.mk 403 true "ngrok.com interstitial Visit Site" none))).1.transcription.error
      = some (serverErrMsg 403 "Unable to parse error response") := by
  refine ⟨by decide, by decide, by decide, by decide⟩

/-- C5 (amended): for every non-2xx response whose error text — the parsed
body re-serialized when the declared content type is JSON and parsing
succeeds, a fixed placeholder when such parsing fails, the raw body text
otherwise — contains any of the three interstitial-page markers, the
gateway-bypass advisory flag is raised regardless of the numeric status code
and the classified message instructs the user to open the endpoint URL
directly once. -/
theorem C5_gateway_advisory :
    ∀ (s : AppState) (r : HttpResponse), s.file.isSome = true → r.isOk = false →
      hasMarker (errorTextOf r) = true →
      (transcribeAudio s (.response r)).1.showNgrokWarning = true ∧
      (transcribeAudio s (.response r)).1.transcription.error = some bypassMsg := by
  intro s r hs hok hm
  rw [transcribeAudio_eq_resolve _ _ hs]
  constructor <;> simp [transcribeResolve, hok, hm, errFinish, classify_bypass]

/-- C5 witness: a concrete 503 plain-text interstitial body containing a
marker raises the advisory and sets the bypass instruction. -/
theorem C5_witness :
    (transcribeAudio (handleFileSelect initialState (FileInfo.mk "a.mp3" "audio/mpeg" 100))
        (.response (HttpResponse.mk 503 false "please click Visit Site to continue" none))).1.showNgrokWarning
      = true ∧
    (transcribeAudio (handleFileSelect initialState (FileInfo.mk "a.mp3" "audio/mpeg" 100))
        (.response (HttpResponse.mk 503 false "please click Visit Site to continue" none))).1.transcription.error
      = some bypassMsg :=
  C5_gateway_advisory _ _ (by decide) (by decide) (by decide)

/-- C8 counterexample: a received 500 response with a plain-text body — the
whole trace of `setTranscription` calls contains no `processing` state
(progress 50 is never set), yet the terminal classified message embeds the
decoded body, so the body was decoded without the claimed prior transition;
the processing transition exists only on the 2xx path (App.tsx line 183,
after the non-ok branch). -/
theorem C8_counterexample :
    (HttpResponse.mk 500 false "boom" none).isOk = false ∧
    ((transcribeAudio (handleFileSelect initialState (FileInfo.mk "a.mp3" "audio/mpeg" 100))
        (.response (HttpResponse.mk 500 false "boom" none))).2.all
          (fun ts => !(ts.status == Status.processing))) = true ∧
    (transcribeAudio (handleFileSelect initialState (FileInfo.mk "a.mp3" "audio/mpeg" 100))
        (.response (HttpResponse.mk 500 false "boom" none))).1.transcription.error
      = some (serverErrMsg 500 "boom") := by
  refine ⟨by decide, by decide, by decide⟩

/-- C8 (amended): for every 2xx response, the Request State transitions to
`processing` with progress 50 before any attempt to decode the response body:
the first two `setTranscription` calls of the run are `uploading`/0 then
`processing`/50, whatever the body and its parse result are — the terminal
state is the only body-dependent one. -/
theorem C8_processing_before_decode :
    ∀ (s : AppState) (r : HttpResponse), s.file.isSome = true → r.isOk = true →
      (transcribeAudio s (.response r)).2.take 2 =
        [{ status := .uploading, progress := some 0 },
         { status := .processing, progress := some 50 }] := by
  intro s r hs hok
  rw [transcribeAudio_eq_resolve _ _ hs]
  cases hj : r.bodyJson with
  | none => simp [transcribeResolve, hok, hj]
  | some j =>
    cases hrf : readTranscriptFields j with
    | error e => simp [transcribeResolve, hok, hj, hrf]
    | ok tv =>
      by_cases htv : jsTruthy tv = true
      · simp [transcribeResolve, hok, hj, hrf, htv]
      · simp only [Bool.not_eq_true] at htv
        simp [transcribeResolve, hok, hj, hrf, htv]

/-- C8 witness: the amended statement at a concrete 2xx response. -/
theorem C8_witness :
    (transcribeAudio (handleFileSelect initialState (FileInfo.mk "a.mp3" "audio/mpeg" 100))
        (.response (HttpResponse.mk 200 true "" (some (.obj [("transcript", .str "hi")]))))).2.take 2
      = [{ status := .uploading, progress := some 0 },
         { status := .processing, progress := some 50 }] :=
  C8_processing_before_decode _ _ (by decide) (by decide)

/-- C4 counterexample: from an accepted file, a first submission leaves the
state `uploading` (pending); calling the submission operation again in that
state dispatches a second request (the only guard in `transcribeAudio` is
`if (!file) return`, App.tsx line 92) — not a no-op; and the pending first
request is never cancelled, so when the second resolves with a success and
the stale first then resolves as an abort, the stale resolution overwrites
the success with an error — not a replacement either, so two requests were
observably in flight. -/
theorem C4_counterexample :
    (transcribeStart (handleFileSelect initialState
        (FileInfo.mk "a.mp3" "audio/mpeg" 100))).1.transcription.status
      = Status.uploading ∧
    (transcribeStart (transcribeStart (handleFileSelect initialState
        (FileInfo.mk "a.mp3" "audio/mpeg" 100))).1).2 = true ∧
    (transcribeResolve (transcribeStart (transcribeStart (handleFileSelect initialState
        (FileInfo.mk "a.mp3" "audio/mpeg" 100))).1).1
        (.response (HttpResponse.mk 200 true ""
          (some (.obj [("transcript", .str "hi")]))))).1.transcription.status
      = Status.success ∧
    (transcribeResolve (transcribeResolve (transcribeStart (transcribeStart
        (handleFileSelect initialState (FileInfo.mk "a.mp3" "audio/mpeg" 100))).1).1
        (.response (HttpResponse.mk 200 true ""
          (some (.obj [("transcript", .str "hi")]))))).1
        (.abortError "The user aborted a request.")).1.transcription.status
      = Status.error := by
  refine ⟨by decide, by decide, by decide, by decide⟩

/-- C4 (amended): the submission operation guards only on file presence: for
every state with a selected file whose status is `uploading` or `processing`,
a new submission call dispatches a fresh request and resets the Request State
to `uploading` with progress 0; the pending attempt is neither ignored nor
cancelled, so the at-most-one-in-flight invariant is enforced only by the
presentation layer's disabled submit control. -/
theorem C4_submission_unguarded :
    ∀ s : AppState, s.file.isSome = true →
      (s.transcription.status = Status.uploading ∨
        s.transcription.status = Status.processing) →
      (transcribeStart s).2 = true ∧
      (transcribeStart s).1 =
        { s with transcription := { status := .uploading, progress := some 0 } } := by
  intro s hs _h
  cases hf : s.file with
  | none => rw [hf] at hs; simp at hs
  | some v => simp [transcribeStart, hf]

/-- C4 witness: the amended statement at a concrete pending (uploading)
state. -/
theorem C4_witness :
    (transcribeStart (transcribeStart (handleFileSelect initialState
        (FileInfo.mk "b.mp3" "audio/mpeg" 7))).1).2 = true ∧
    (transcribeStart (transcribeStart (handleFileSelect initialState
        (FileInfo.mk "b.mp3" "audio/mpeg" 7))).1).1 =
      { (transcribeStart (handleFileSelect initialState
          (FileInfo.mk "b.mp3" "audio/mpeg" 7))).1 with
        transcription := { status := .uploading, progress := some 0 } } :=
  C4_submission_unguarded _ (by decide) (Or.inl (by decide))
